import Mathlib

/-!
Verification of the financial scenario and scoring engine (`MockDataEngine`)
of the AI-CFO dashboard. The engine's JavaScript numbers are modelled as
rationals (`ℚ`): every computation the engine performs on the inputs used
here is exact rational arithmetic, and `Math.round` is floor of `x + 1/2`
(JavaScript rounds halves toward positive infinity). Division `/` on `ℚ` is
Lean's total division; every division appearing in a proved statement is
taken at a nonzero denominator, where it agrees with real division.
-/

/-- Expense breakdown of a financial snapshot, mirroring the
`expenses` object of `MockFinancials` in `types.ts`. -/
structure Expenses where
  engineering : ℚ
  marketing : ℚ
  sales : ℚ
  operations : ℚ
  aws : ℚ
  deriving DecidableEq, Repr

/-- One financial snapshot, mirroring `MockFinancials` in `types.ts`. -/
structure MockFinancials where
  mrr : ℚ
  burn : ℚ
  runway : ℚ
  cash : ℚ
  expenses : Expenses
  growth : ℚ
  revenue : ℚ
  deriving DecidableEq, Repr

/-- What-if scenario parameters, mirroring `WhatIfParams` in `types.ts`. -/
structure WhatIfParams where
  spendChange : ℚ
  hiringRate : ℚ
  revenueGrowth : ℚ
  deriving DecidableEq, Repr

/-- The baseline snapshot `BASE_FINANCIALS` of `mockEngine.ts`. -/
def BASE_FINANCIALS : MockFinancials :=
  { mrr := 45000
    burn := 85000
    runway := 6.2
    cash := 527000
    expenses :=
      { engineering := 45000
        marketing := 18000
        sales := 12000
        operations := 7000
        aws := 3000 }
    growth := 12.5
    revenue := 45000 }

/-- Sum of the five expense categories, in the insertion order the source's
`Object.values(expenses).reduce((a, b) => a + b, 0)` visits them. -/
def totalExpenses (e : Expenses) : ℚ :=
  0 + e.engineering + e.marketing + e.sales + e.operations + e.aws

/-- JavaScript's `Math.round`: floor of `x + 1/2` (halves round toward `+∞`). -/
def jsRound (x : ℚ) : ℤ := ⌊x + 1 / 2⌋

/-- The computational part of `MockDataEngine.applyWhatIf`: the derived
snapshot, as a pure function of the engine's `baseData` and the parameters. -/
def applyWhatIfCalc (baseData : MockFinancials) (params : WhatIfParams) : MockFinancials :=
  let spendMultiplier := 1 + params.spendChange / 100
  let hiringImpact := params.hiringRate * 15000
  let revenueMultiplier := 1 + params.revenueGrowth / 100
  let newExpenses : Expenses :=
    { engineering := baseData.expenses.engineering * spendMultiplier + hiringImpact * 0.6
      marketing := baseData.expenses.marketing * spendMultiplier
      sales := baseData.expenses.sales * spendMultiplier + hiringImpact * 0.3
      operations := baseData.expenses.operations * spendMultiplier + hiringImpact * 0.1
      aws := baseData.expenses.aws * (1 + params.spendChange / 200) }
  let newTotalExpenses := totalExpenses newExpenses
  let newRevenue := baseData.revenue * revenueMultiplier
  let newBurn := newTotalExpenses - newRevenue
  let newRunway := if newBurn > 0 then baseData.cash / newBurn else 99
  let newGrowth := baseData.growth + params.revenueGrowth * 0.4
  { mrr := newRevenue
    burn := newBurn
    runway := max 0 newRunway
    cash := baseData.cash
    expenses := newExpenses
    growth := newGrowth
    revenue := newRevenue }

/-- The engine's state: its immutable baseline and the last-applied
parameters (the class fields `baseData` and `currentParams`). -/
structure MockDataEngine where
  baseData : MockFinancials
  currentParams : WhatIfParams
  deriving DecidableEq, Repr

/-- The state the constructor builds: baseline data, all-zero parameters. -/
def initialEngine : MockDataEngine :=
  { baseData := BASE_FINANCIALS
    currentParams := { spendChange := 0, hiringRate := 0, revenueGrowth := 0 } }

/-- `MockDataEngine.applyWhatIf`: records the parameters as the new
`currentParams` and returns the derived snapshot. -/
def MockDataEngine.applyWhatIf (engine : MockDataEngine) (params : WhatIfParams) :
    MockDataEngine × MockFinancials :=
  ({ engine with currentParams := params }, applyWhatIfCalc engine.baseData params)

/-- `MockDataEngine.getCurrentFinancials`: the baseline when the stored
parameters are all zero, otherwise `applyWhatIf` at the stored parameters. -/
def MockDataEngine.getCurrentFinancials (engine : MockDataEngine) :
    MockDataEngine × MockFinancials :=
  if engine.currentParams.spendChange = 0 ∧ engine.currentParams.hiringRate = 0 ∧
      engine.currentParams.revenueGrowth = 0 then
    (engine, engine.baseData)
  else
    engine.applyWhatIf engine.currentParams

/-- The seven credit sub-factors of `calculateCreditScore`, before weighting:
`Math.min(1, financials.growth / 30)`. -/
def revenueGrowthFactor (financials : MockFinancials) : ℚ :=
  min 1 (financials.growth / 30)

/-- `Math.max(0, 1 - Math.abs(financials.burn - BASE_FINANCIALS.burn) / BASE_FINANCIALS.burn)`. -/
def burnStabilityFactor (financials : MockFinancials) : ℚ :=
  max 0 (1 - |financials.burn - BASE_FINANCIALS.burn| / BASE_FINANCIALS.burn)

/-- `Math.min(1, financials.runway / 12)`. -/
def cashRunwayFactor (financials : MockFinancials) : ℚ :=
  min 1 (financials.runway / 12)

/-- The fixed sub-factor `debtRatio = 0.85`. -/
def debtRatioFactor : ℚ := 0.85

/-- The fixed sub-factor `paymentReliability = 0.92`. -/
def paymentReliabilityFactor : ℚ := 0.92

/-- `Math.max(0, 1 - financials.burn / financials.revenue)`. -/
def profitabilityIndexFactor (financials : MockFinancials) : ℚ :=
  max 0 (1 - financials.burn / financials.revenue)

/-- `Math.min(1, financials.cash / (financials.burn * 3))`. -/
def liquidityIndexFactor (financials : MockFinancials) : ℚ :=
  min 1 (financials.cash / (financials.burn * 3))

/-- The fixed factor weights of `calculateCreditScore` (the `weights` object). -/
structure CreditWeights where
  revenueGrowth : ℚ
  burnStability : ℚ
  cashRunway : ℚ
  debtRatio : ℚ
  paymentReliability : ℚ
  profitabilityIndex : ℚ
  liquidityIndex : ℚ
  deriving DecidableEq, Repr

/-- The weight values of `calculateCreditScore`. -/
def creditWeights : CreditWeights :=
  { revenueGrowth := 0.25
    burnStability := 0.15
    cashRunway := 0.20
    debtRatio := 0.10
    paymentReliability := 0.10
    profitabilityIndex := 0.10
    liquidityIndex := 0.10 }

/-- The rounded per-factor contributions, mirroring `CreditScoreBreakdown`
of `types.ts` (every field is a `Math.round` result). -/
structure CreditScoreBreakdown where
  revenueGrowth : ℤ
  burnStability : ℤ
  cashRunway : ℤ
  debtRatio : ℤ
  paymentReliability : ℤ
  profitabilityIndex : ℤ
  liquidityIndex : ℤ
  deriving DecidableEq, Repr

/-- The `{ score, breakdown }` object `calculateCreditScore` returns. -/
structure CreditScoreResult where
  score : ℤ
  breakdown : CreditScoreBreakdown
  deriving DecidableEq, Repr

/-- `MockDataEngine.calculateCreditScore`: the weighted total on a 0-1000
scale and the per-factor breakdown. -/
def calculateCreditScore (financials : MockFinancials) : CreditScoreResult :=
  let score := jsRound (1000 *
    (revenueGrowthFactor financials * creditWeights.revenueGrowth +
      burnStabilityFactor financials * creditWeights.burnStability +
      cashRunwayFactor financials * creditWeights.cashRunway +
      debtRatioFactor * creditWeights.debtRatio +
      paymentReliabilityFactor * creditWeights.paymentReliability +
      profitabilityIndexFactor financials * creditWeights.profitabilityIndex +
      liquidityIndexFactor financials * creditWeights.liquidityIndex))
  { score := score
    breakdown :=
      { revenueGrowth := jsRound (revenueGrowthFactor financials * 1000 * creditWeights.revenueGrowth)
        burnStability := jsRound (burnStabilityFactor financials * 1000 * creditWeights.burnStability)
        cashRunway := jsRound (cashRunwayFactor financials * 1000 * creditWeights.cashRunway)
        debtRatio := jsRound (debtRatioFactor * 1000 * creditWeights.debtRatio)
        paymentReliability := jsRound (paymentReliabilityFactor * 1000 * creditWeights.paymentReliability)
        profitabilityIndex := jsRound (profitabilityIndexFactor financials * 1000 * creditWeights.profitabilityIndex)
        liquidityIndex := jsRound (liquidityIndexFactor financials * 1000 * creditWeights.liquidityIndex) } }

/-- Status tag of a funding-readiness factor. -/
inductive FactorStatus where
  | good
  | warning
  | critical
  deriving DecidableEq, Repr

/-- One funding-readiness factor. -/
structure ReadinessFactor where
  name : String
  score : ℤ
  status : FactorStatus
  deriving DecidableEq, Repr

/-- The `{ score, factors, recommendation }` object of `getFundingReadiness`. -/
structure FundingReadiness where
  score : ℤ
  factors : List ReadinessFactor
  recommendation : String
  deriving DecidableEq, Repr

/-- `MockDataEngine.getFundingReadiness`: five factors, their rounded mean,
and a recommendation chosen by three bands of the mean. -/
def getFundingReadiness (financials : MockFinancials) : FundingReadiness :=
  let factors : List ReadinessFactor :=
    [{ name := "Valuation Multiple", score := 72, status := FactorStatus.good },
     { name := "Growth Rate"
       score := jsRound (min 100 (financials.growth / 20 * 100))
       status := if financials.growth > 15 then FactorStatus.good else FactorStatus.warning },
     { name := "Compliance & Audit", score := 95, status := FactorStatus.good },
     { name := "Team Scale", score := 68, status := FactorStatus.warning },
     { name := "Cash Runway"
       score := jsRound (financials.runway / 12 * 100)
       status :=
         if financials.runway > 9 then FactorStatus.good
         else if financials.runway > 6 then FactorStatus.warning
         else FactorStatus.critical }]
  let avgScore : ℤ :=
    jsRound (((factors.foldl (fun sum f => sum + f.score) 0 : ℤ) : ℚ) / (factors.length : ℚ))
  let recommendation : String :=
    if avgScore < 70 then "Delay raise by 2 months for better multiple."
    else if avgScore > 85 then "Strong position — raise at premium valuation."
    else "Ready to raise now."
  { score := avgScore, factors := factors, recommendation := recommendation }

/-- Modelled from the spec's words, for comparison with the source's
formulas: the clamp of `x` into the interval from `lo` to `hi`. -/
def specClamp (lo hi x : ℚ) : ℚ := max lo (min hi x)

/-- The baseline with its `growth` turned strongly negative; every other
field is untouched. -/
def negativeGrowthSnapshot : MockFinancials :=
  { BASE_FINANCIALS with growth := -30 }

/-- The baseline with a negative `burn` (net-positive cash flow). -/
def negativeBurnSnapshot : MockFinancials :=
  { BASE_FINANCIALS with burn := -1000 }

/-- The baseline with a negative `revenue`. -/
def negativeRevenueSnapshot : MockFinancials :=
  { BASE_FINANCIALS with revenue := -45000 }

/-- The baseline with a two-year `runway`. -/
def longRunwaySnapshot : MockFinancials :=
  { BASE_FINANCIALS with runway := 24 }

/-- The `burn` the projector outputs is the sum of the output expenses minus
the output revenue, by construction. -/
lemma applyWhatIfCalc_burn (base : MockFinancials) (params : WhatIfParams) :
    (applyWhatIfCalc base params).burn =
      totalExpenses (applyWhatIfCalc base params).expenses -
        (applyWhatIfCalc base params).revenue := rfl

/-- The projector passes the baseline's cash through unchanged. -/
lemma applyWhatIfCalc_cash (base : MockFinancials) (params : WhatIfParams) :
    (applyWhatIfCalc base params).cash = base.cash := rfl

/-- The `runway` the projector outputs, written over its own output `burn`. -/
lemma applyWhatIfCalc_runway (base : MockFinancials) (params : WhatIfParams) :
    (applyWhatIfCalc base params).runway =
      max 0 (if (applyWhatIfCalc base params).burn > 0 then
        base.cash / (applyWhatIfCalc base params).burn else 99) := rfl

/-- `jsRound` never overshoots by more than a half. -/
lemma jsRound_le (x : ℚ) : (jsRound x : ℚ) ≤ x + 1 / 2 := Int.floor_le _

/-- `jsRound` never undershoots by a half or more. -/
lemma lt_jsRound (x : ℚ) : x - 1 / 2 < (jsRound x : ℚ) := by
  have h := Int.sub_one_lt_floor (x + 1 / 2)
  unfold jsRound
  linarith

/-- C1: evaluation of `applyWhatIf` at the all-zero parameters on the
baseline engine. The output matches the baseline on `mrr`, `cash`,
`expenses`, `growth` and `revenue`, but its `burn` is 40000 (expenses minus
revenue) where the baseline records 85000 (the bare expense total), and its
`runway` is 527000/40000 = 13.175 where the baseline records 6.2; the
identity-scenario property therefore fails on the shipped baseline data. -/
theorem applyWhatIf_zero_params_not_identity :
    (initialEngine.applyWhatIf ⟨0, 0, 0⟩).2.mrr = BASE_FINANCIALS.mrr ∧
    (initialEngine.applyWhatIf ⟨0, 0, 0⟩).2.cash = BASE_FINANCIALS.cash ∧
    (initialEngine.applyWhatIf ⟨0, 0, 0⟩).2.expenses = BASE_FINANCIALS.expenses ∧
    (initialEngine.applyWhatIf ⟨0, 0, 0⟩).2.growth = BASE_FINANCIALS.growth ∧
    (initialEngine.applyWhatIf ⟨0, 0, 0⟩).2.revenue = BASE_FINANCIALS.revenue ∧
    (initialEngine.applyWhatIf ⟨0, 0, 0⟩).2.burn = 40000 ∧
    BASE_FINANCIALS.burn = 85000 ∧
    (initialEngine.applyWhatIf ⟨0, 0, 0⟩).2.runway = 527000 / 40000 ∧
    BASE_FINANCIALS.runway = 31 / 5 ∧
    (initialEngine.applyWhatIf ⟨0, 0, 0⟩).2 ≠ BASE_FINANCIALS := by
  norm_num [MockDataEngine.applyWhatIf, initialEngine, applyWhatIfCalc, BASE_FINANCIALS,
    totalExpenses, Expenses.mk.injEq, MockFinancials.mk.injEq]

/-- C2 (counterexample): the baseline snapshot itself breaks the burn
invariant: its `burn` field is 85000 while the sum of its expenses minus its
revenue is 40000. -/
theorem baseline_burn_breaks_invariant :
    BASE_FINANCIALS.burn = 85000 ∧
    totalExpenses BASE_FINANCIALS.expenses - BASE_FINANCIALS.revenue = 40000 ∧
    BASE_FINANCIALS.burn ≠ totalExpenses BASE_FINANCIALS.expenses - BASE_FINANCIALS.revenue := by
  norm_num [BASE_FINANCIALS, totalExpenses]

/-- C2 (amended): every snapshot `applyWhatIf` returns satisfies all three
invariants - its burn is the sum of its five expense categories minus its
revenue, its runway is cash over burn when burn is positive and the sentinel
99 otherwise, and its runway is never negative; the baseline satisfies the
runway invariants (6.2 = 527000/85000 and is nonnegative) but not the burn
invariant. -/
theorem applyWhatIf_snapshot_invariants (params : WhatIfParams) :
    (initialEngine.applyWhatIf params).2.burn =
      totalExpenses (initialEngine.applyWhatIf params).2.expenses -
        (initialEngine.applyWhatIf params).2.revenue ∧
    (0 < (initialEngine.applyWhatIf params).2.burn →
      (initialEngine.applyWhatIf params).2.runway =
        (initialEngine.applyWhatIf params).2.cash / (initialEngine.applyWhatIf params).2.burn) ∧
    ((initialEngine.applyWhatIf params).2.burn ≤ 0 →
      (initialEngine.applyWhatIf params).2.runway = 99) ∧
    0 ≤ (initialEngine.applyWhatIf params).2.runway ∧
    BASE_FINANCIALS.runway = BASE_FINANCIALS.cash / BASE_FINANCIALS.burn ∧
    0 ≤ BASE_FINANCIALS.runway := by
  have h2 : (initialEngine.applyWhatIf params).2 = applyWhatIfCalc BASE_FINANCIALS params := rfl
  rw [h2]
  refine ⟨applyWhatIfCalc_burn _ _, ?_, ?_, ?_,
    by norm_num [BASE_FINANCIALS], by norm_num [BASE_FINANCIALS]⟩
  · intro h
    rw [applyWhatIfCalc_runway, if_pos h, applyWhatIfCalc_cash]
    exact max_eq_right (div_nonneg (by norm_num [BASE_FINANCIALS]) h.le)
  · intro h
    rw [applyWhatIfCalc_runway, if_neg (not_lt.mpr h)]
    norm_num
  · rw [applyWhatIfCalc_runway]
    exact le_max_left _ _

/-- C2 (witness): the invariants evaluated at the concrete parameters
spendChange 50, hiringRate 1, revenueGrowth 10. -/
theorem applyWhatIf_snapshot_invariants_witness :
    (initialEngine.applyWhatIf ⟨50, 1, 10⟩).2.burn =
      totalExpenses (initialEngine.applyWhatIf ⟨50, 1, 10⟩).2.expenses -
        (initialEngine.applyWhatIf ⟨50, 1, 10⟩).2.revenue ∧
    0 ≤ (initialEngine.applyWhatIf ⟨50, 1, 10⟩).2.runway :=
  ⟨(applyWhatIf_snapshot_invariants ⟨50, 1, 10⟩).1,
   (applyWhatIf_snapshot_invariants ⟨50, 1, 10⟩).2.2.2.1⟩

/-- C3 (counterexample): on a snapshot with growth -30 the revenue-growth
sub-factor is -1, outside the unit interval and away from the clamped value
0; on a snapshot with negative burn the liquidity sub-factor is -527/3, not
the value 1 the claim assigns to every non-positive burn. -/
theorem credit_factors_escape_unit_interval :
    revenueGrowthFactor negativeGrowthSnapshot = -1 ∧
    specClamp 0 1 (negativeGrowthSnapshot.growth / 30) = 0 ∧
    revenueGrowthFactor negativeGrowthSnapshot < 0 ∧
    negativeBurnSnapshot.burn ≤ 0 ∧
    liquidityIndexFactor negativeBurnSnapshot = -527 / 3 ∧
    liquidityIndexFactor negativeBurnSnapshot ≠ 1 := by
  norm_num [revenueGrowthFactor, liquidityIndexFactor, specClamp, negativeGrowthSnapshot,
    negativeBurnSnapshot, BASE_FINANCIALS, min_def, max_def]

/-- C3 (amended): the code caps each varying sub-factor only from above, so
the seven sub-factors all lie in the unit interval only on snapshots with
nonnegative growth, runway and cash, positive burn and positive revenue; on
such snapshots the revenue-growth sub-factor agrees with clamp(growth/30, 0, 1)
and the liquidity sub-factor agrees with clamp(cash/(burn*3), 0, 1). -/
theorem credit_factors_clamped_on_sane_snapshots (f : MockFinancials)
    (hg : 0 ≤ f.growth) (hr : 0 ≤ f.runway) (hb : 0 < f.burn)
    (hc : 0 ≤ f.cash) (hv : 0 < f.revenue) :
    (0 ≤ revenueGrowthFactor f ∧ revenueGrowthFactor f ≤ 1) ∧
    (0 ≤ burnStabilityFactor f ∧ burnStabilityFactor f ≤ 1) ∧
    (0 ≤ cashRunwayFactor f ∧ cashRunwayFactor f ≤ 1) ∧
    (0 ≤ debtRatioFactor ∧ debtRatioFactor ≤ 1) ∧
    (0 ≤ paymentReliabilityFactor ∧ paymentReliabilityFactor ≤ 1) ∧
    (0 ≤ profitabilityIndexFactor f ∧ profitabilityIndexFactor f ≤ 1) ∧
    (0 ≤ liquidityIndexFactor f ∧ liquidityIndexFactor f ≤ 1) ∧
    revenueGrowthFactor f = specClamp 0 1 (f.growth / 30) ∧
    liquidityIndexFactor f = specClamp 0 1 (f.cash / (f.burn * 3)) := by
  have hrg : 0 ≤ f.growth / 30 := div_nonneg hg (by norm_num)
  have hcr : 0 ≤ f.runway / 12 := div_nonneg hr (by norm_num)
  have hliq : 0 ≤ f.cash / (f.burn * 3) := div_nonneg hc (by positivity)
  have hbs : 0 ≤ |f.burn - BASE_FINANCIALS.burn| / BASE_FINANCIALS.burn :=
    div_nonneg (abs_nonneg _) (by norm_num [BASE_FINANCIALS])
  refine ⟨⟨le_min zero_le_one hrg, min_le_left _ _⟩,
    ⟨le_max_left _ _, max_le zero_le_one (sub_le_self _ hbs)⟩,
    ⟨le_min zero_le_one hcr, min_le_left _ _⟩,
    ⟨by norm_num [debtRatioFactor], by norm_num [debtRatioFactor]⟩,
    ⟨by norm_num [paymentReliabilityFactor], by norm_num [paymentReliabilityFactor]⟩,
    ⟨le_max_left _ _, max_le zero_le_one (sub_le_self _ (div_nonneg hb.le hv.le))⟩,
    ⟨le_min zero_le_one hliq, min_le_left _ _⟩, ?_, ?_⟩
  · show min 1 (f.growth / 30) = max 0 (min 1 (f.growth / 30))
    exact (max_eq_right (le_min zero_le_one hrg)).symm
  · show min 1 (f.cash / (f.burn * 3)) = max 0 (min 1 (f.cash / (f.burn * 3)))
    exact (max_eq_right (le_min zero_le_one hliq)).symm

/-- C3 (witness): the clamp agreements and the profitability bound evaluated
at the baseline snapshot, whose fields satisfy every hypothesis. -/
theorem credit_factors_clamped_witness :
    revenueGrowthFactor BASE_FINANCIALS = specClamp 0 1 (BASE_FINANCIALS.growth / 30) ∧
    liquidityIndexFactor BASE_FINANCIALS =
      specClamp 0 1 (BASE_FINANCIALS.cash / (BASE_FINANCIALS.burn * 3)) ∧
    0 ≤ profitabilityIndexFactor BASE_FINANCIALS ∧
    profitabilityIndexFactor BASE_FINANCIALS ≤ 1 := by
  have h := credit_factors_clamped_on_sane_snapshots BASE_FINANCIALS
    (by norm_num [BASE_FINANCIALS]) (by norm_num [BASE_FINANCIALS]) (by norm_num [BASE_FINANCIALS])
    (by norm_num [BASE_FINANCIALS]) (by norm_num [BASE_FINANCIALS])
  exact ⟨h.2.2.2.2.2.2.2.1, h.2.2.2.2.2.2.2.2, h.2.2.2.2.2.1.1, h.2.2.2.2.2.1.2⟩

/-- C4 (counterexample): on a snapshot with revenue -45000 the profitability
sub-factor is 26/9, not the 0 the claim says negative revenue is mapped to,
so that division is not guarded. -/
theorem profitability_division_unguarded :
    negativeRevenueSnapshot.revenue < 0 ∧
    profitabilityIndexFactor negativeRevenueSnapshot = 26 / 9 ∧
    profitabilityIndexFactor negativeRevenueSnapshot ≠ 0 := by
  norm_num [profitabilityIndexFactor, negativeRevenueSnapshot, BASE_FINANCIALS, max_def]

/-- C4 (amended): only the projector guards its division - it divides into
runway only when the projected burn is positive and returns the sentinel 99
otherwise; the credit scorer guards neither division: with negative revenue
and positive burn the profitability sub-factor exceeds 1 instead of being 0,
and with negative burn and positive cash the liquidity sub-factor is
negative instead of 1. -/
theorem division_guard_status :
    (∀ params : WhatIfParams, (initialEngine.applyWhatIf params).2.burn ≤ 0 →
      (initialEngine.applyWhatIf params).2.runway = 99) ∧
    (∀ f : MockFinancials, f.revenue < 0 → 0 < f.burn → 1 < profitabilityIndexFactor f) ∧
    (∀ f : MockFinancials, f.burn < 0 → 0 < f.cash → liquidityIndexFactor f < 0) := by
  refine ⟨?_, ?_, ?_⟩
  · intro params h
    have h2 : (initialEngine.applyWhatIf params).2 = applyWhatIfCalc BASE_FINANCIALS params := rfl
    rw [h2] at h ⊢
    rw [applyWhatIfCalc_runway, if_neg (not_lt.mpr h)]
    norm_num
  · intro f h1 h2
    exact lt_max_of_lt_right (by linarith [div_neg_of_pos_of_neg h2 h1])
  · intro f h1 h2
    exact lt_of_le_of_lt (min_le_right _ _) (div_neg_of_pos_of_neg h2 (by linarith))

/-- C4 (witness): the three conjuncts evaluated at concrete inputs: the
parameters ⟨0, 0, 1000⟩ drive the projected burn negative and the runway to
99, and the negative-revenue and negative-burn snapshots exhibit the two
unguarded divisions. -/
theorem division_guard_status_witness :
    (initialEngine.applyWhatIf ⟨0, 0, 1000⟩).2.runway = 99 ∧
    1 < profitabilityIndexFactor negativeRevenueSnapshot ∧
    liquidityIndexFactor negativeBurnSnapshot < 0 := by
  have h := division_guard_status
  refine ⟨h.1 ⟨0, 0, 1000⟩ (by norm_num [MockDataEngine.applyWhatIf, initialEngine,
      applyWhatIfCalc, BASE_FINANCIALS, totalExpenses]),
    h.2.1 negativeRevenueSnapshot (by norm_num [negativeRevenueSnapshot, BASE_FINANCIALS])
      (by norm_num [negativeRevenueSnapshot, BASE_FINANCIALS]),
    h.2.2 negativeBurnSnapshot (by norm_num [negativeBurnSnapshot, BASE_FINANCIALS])
      (by norm_num [negativeBurnSnapshot, BASE_FINANCIALS])⟩

/-- C5: applying spendChange 100 with the other parameters zero to the
baseline yields engineering 90000, marketing 36000, sales 24000, operations
14000, infrastructure (the `aws` field) 4500, total expenses 168500, burn
168500 - 45000 = 123500, and runway 527000/123500. -/
theorem applyWhatIf_double_spend_concrete :
    (initialEngine.applyWhatIf ⟨100, 0, 0⟩).2.expenses.engineering = 90000 ∧
    (initialEngine.applyWhatIf ⟨100, 0, 0⟩).2.expenses.marketing = 36000 ∧
    (initialEngine.applyWhatIf ⟨100, 0, 0⟩).2.expenses.sales = 24000 ∧
    (initialEngine.applyWhatIf ⟨100, 0, 0⟩).2.expenses.operations = 14000 ∧
    (initialEngine.applyWhatIf ⟨100, 0, 0⟩).2.expenses.aws = 4500 ∧
    totalExpenses (initialEngine.applyWhatIf ⟨100, 0, 0⟩).2.expenses = 168500 ∧
    (initialEngine.applyWhatIf ⟨100, 0, 0⟩).2.burn = 168500 - 45000 ∧
    (initialEngine.applyWhatIf ⟨100, 0, 0⟩).2.burn = 123500 ∧
    (initialEngine.applyWhatIf ⟨100, 0, 0⟩).2.runway = 527000 / 123500 := by
  norm_num [MockDataEngine.applyWhatIf, initialEngine, applyWhatIfCalc, BASE_FINANCIALS,
    totalExpenses]

/-- C6: with hiringRate and revenueGrowth fixed at zero, moving spendChange
from 0 to 100 strictly increases the projected burn and does not increase
the projected runway, given that the burn at spendChange 0 is positive. -/
theorem double_spend_increases_burn
    (h : 0 < (initialEngine.applyWhatIf ⟨0, 0, 0⟩).2.burn) :
    (initialEngine.applyWhatIf ⟨0, 0, 0⟩).2.burn <
      (initialEngine.applyWhatIf ⟨100, 0, 0⟩).2.burn ∧
    (initialEngine.applyWhatIf ⟨100, 0, 0⟩).2.runway ≤
      (initialEngine.applyWhatIf ⟨0, 0, 0⟩).2.runway := by
  norm_num [MockDataEngine.applyWhatIf, initialEngine, applyWhatIfCalc, BASE_FINANCIALS,
    totalExpenses]

/-- C6 (witness): the hypothesis holds concretely (the burn at spendChange 0
is 40000) and the two comparisons follow. -/
theorem double_spend_increases_burn_witness :
    0 < (initialEngine.applyWhatIf ⟨0, 0, 0⟩).2.burn ∧
    ((initialEngine.applyWhatIf ⟨0, 0, 0⟩).2.burn <
        (initialEngine.applyWhatIf ⟨100, 0, 0⟩).2.burn ∧
      (initialEngine.applyWhatIf ⟨100, 0, 0⟩).2.runway ≤
        (initialEngine.applyWhatIf ⟨0, 0, 0⟩).2.runway) :=
  ⟨by norm_num [MockDataEngine.applyWhatIf, initialEngine, applyWhatIfCalc, BASE_FINANCIALS,
      totalExpenses],
    double_spend_increases_burn (by
      norm_num [MockDataEngine.applyWhatIf, initialEngine, applyWhatIfCalc, BASE_FINANCIALS,
        totalExpenses])⟩

/-- C7: for every input snapshot, `getFundingReadiness` returns five factors
and its overall score is exactly the rounded unweighted arithmetic mean of
the five factor scores it returns. -/
theorem funding_score_is_rounded_mean (f : MockFinancials) :
    (getFundingReadiness f).factors.length = 5 ∧
    (getFundingReadiness f).score =
      jsRound ((((getFundingReadiness f).factors.foldl (fun sum x => sum + x.score) 0 : ℤ) : ℚ) /
        ((getFundingReadiness f).factors.length : ℚ)) :=
  ⟨rfl, rfl⟩

/-- C8: the Cash Runway factor (index 4) scores round(runway/12*100) with no
upper clamp - at runway 24 the score is above 100 - and its status is good
when runway > 9, warning when 6 < runway <= 9, and critical when
runway <= 6. -/
theorem cash_runway_factor_spec :
    (∀ f : MockFinancials,
      ((getFundingReadiness f).factors.getD 4 ⟨"", 0, FactorStatus.critical⟩).score =
        jsRound (f.runway / 12 * 100) ∧
      (9 < f.runway →
        ((getFundingReadiness f).factors.getD 4 ⟨"", 0, FactorStatus.critical⟩).status =
          FactorStatus.good) ∧
      (6 < f.runway → f.runway ≤ 9 →
        ((getFundingReadiness f).factors.getD 4 ⟨"", 0, FactorStatus.critical⟩).status =
          FactorStatus.warning) ∧
      (f.runway ≤ 6 →
        ((getFundingReadiness f).factors.getD 4 ⟨"", 0, FactorStatus.critical⟩).status =
          FactorStatus.critical)) ∧
    12 < longRunwaySnapshot.runway ∧
    100 < ((getFundingReadiness longRunwaySnapshot).factors.getD 4
      ⟨"", 0, FactorStatus.critical⟩).score := by
  refine ⟨?_, by norm_num [longRunwaySnapshot, BASE_FINANCIALS], ?_⟩
  · intro f
    refine ⟨rfl, ?_, ?_, ?_⟩
    · intro h9
      show (if f.runway > 9 then FactorStatus.good
        else if f.runway > 6 then FactorStatus.warning else FactorStatus.critical) =
          FactorStatus.good
      rw [if_pos h9]
    · intro h6 h9
      show (if f.runway > 9 then FactorStatus.good
        else if f.runway > 6 then FactorStatus.warning else FactorStatus.critical) =
          FactorStatus.warning
      rw [if_neg (not_lt.mpr h9), if_pos h6]
    · intro h6
      show (if f.runway > 9 then FactorStatus.good
        else if f.runway > 6 then FactorStatus.warning else FactorStatus.critical) =
          FactorStatus.critical
      rw [if_neg (not_lt.mpr (h6.trans (by norm_num))), if_neg (not_lt.mpr h6)]
  · show 100 < jsRound (longRunwaySnapshot.runway / 12 * 100)
    norm_num [jsRound, longRunwaySnapshot, BASE_FINANCIALS]

/-- C8 (witness): the status implications discharged at concrete runways:
a 10-month runway is good, the baseline's 6.2-month runway is warning. -/
theorem cash_runway_factor_spec_witness :
    ((getFundingReadiness { BASE_FINANCIALS with runway := 10 }).factors.getD 4
      ⟨"", 0, FactorStatus.critical⟩).status = FactorStatus.good ∧
    ((getFundingReadiness BASE_FINANCIALS).factors.getD 4
      ⟨"", 0, FactorStatus.critical⟩).status = FactorStatus.warning :=
  ⟨(cash_runway_factor_spec.1 { BASE_FINANCIALS with runway := 10 }).2.1 (by norm_num),
   (cash_runway_factor_spec.1 BASE_FINANCIALS).2.2.1 (by norm_num [BASE_FINANCIALS])
     (by norm_num [BASE_FINANCIALS])⟩

/-- C9: for every input snapshot, the sum of the seven breakdown values of
`calculateCreditScore` differs from the returned total score by at most 7
(one unit of rounding tolerance per factor). -/
theorem credit_breakdown_sum_close (f : MockFinancials) :
    |((calculateCreditScore f).breakdown.revenueGrowth +
      (calculateCreditScore f).breakdown.burnStability +
      (calculateCreditScore f).breakdown.cashRunway +
      (calculateCreditScore f).breakdown.debtRatio +
      (calculateCreditScore f).breakdown.paymentReliability +
      (calculateCreditScore f).breakdown.profitabilityIndex +
      (calculateCreditScore f).breakdown.liquidityIndex) -
      (calculateCreditScore f).score| ≤ 7 := by
  show |(jsRound (revenueGrowthFactor f * 1000 * creditWeights.revenueGrowth) +
      jsRound (burnStabilityFactor f * 1000 * creditWeights.burnStability) +
      jsRound (cashRunwayFactor f * 1000 * creditWeights.cashRunway) +
      jsRound (debtRatioFactor * 1000 * creditWeights.debtRatio) +
      jsRound (paymentReliabilityFactor * 1000 * creditWeights.paymentReliability) +
      jsRound (profitabilityIndexFactor f * 1000 * creditWeights.profitabilityIndex) +
      jsRound (liquidityIndexFactor f * 1000 * creditWeights.liquidityIndex)) -
      jsRound (1000 * (revenueGrowthFactor f * creditWeights.revenueGrowth +
        burnStabilityFactor f * creditWeights.burnStability +
        cashRunwayFactor f * creditWeights.cashRunway +
        debtRatioFactor * creditWeights.debtRatio +
        paymentReliabilityFactor * creditWeights.paymentReliability +
        profitabilityIndexFactor f * creditWeights.profitabilityIndex +
        liquidityIndexFactor f * creditWeights.liquidityIndex))| ≤ 7
  have h1 := jsRound_le (revenueGrowthFactor f * 1000 * creditWeights.revenueGrowth)
  have g1 := lt_jsRound (revenueGrowthFactor f * 1000 * creditWeights.revenueGrowth)
  have h2 := jsRound_le (burnStabilityFactor f * 1000 * creditWeights.burnStability)
  have g2 := lt_jsRound (burnStabilityFactor f * 1000 * creditWeights.burnStability)
  have h3 := jsRound_le (cashRunwayFactor f * 1000 * creditWeights.cashRunway)
  have g3 := lt_jsRound (cashRunwayFactor f * 1000 * creditWeights.cashRunway)
  have h4 := jsRound_le (debtRatioFactor * 1000 * creditWeights.debtRatio)
  have g4 := lt_jsRound (debtRatioFactor * 1000 * creditWeights.debtRatio)
  have h5 := jsRound_le (paymentReliabilityFactor * 1000 * creditWeights.paymentReliability)
  have g5 := lt_jsRound (paymentReliabilityFactor * 1000 * creditWeights.paymentReliability)
  have h6 := jsRound_le (profitabilityIndexFactor f * 1000 * creditWeights.profitabilityIndex)
  have g6 := lt_jsRound (profitabilityIndexFactor f * 1000 * creditWeights.profitabilityIndex)
  have h7 := jsRound_le (liquidityIndexFactor f * 1000 * creditWeights.liquidityIndex)
  have g7 := lt_jsRound (liquidityIndexFactor f * 1000 * creditWeights.liquidityIndex)
  have hS := jsRound_le (1000 * (revenueGrowthFactor f * creditWeights.revenueGrowth +
    burnStabilityFactor f * creditWeights.burnStability +
    cashRunwayFactor f * creditWeights.cashRunway +
    debtRatioFactor * creditWeights.debtRatio +
    paymentReliabilityFactor * creditWeights.paymentReliability +
    profitabilityIndexFactor f * creditWeights.profitabilityIndex +
    liquidityIndexFactor f * creditWeights.liquidityIndex))
  have gS := lt_jsRound (1000 * (revenueGrowthFactor f * creditWeights.revenueGrowth +
    burnStabilityFactor f * creditWeights.burnStability +
    cashRunwayFactor f * creditWeights.cashRunway +
    debtRatioFactor * creditWeights.debtRatio +
    paymentReliabilityFactor * creditWeights.paymentReliability +
    profitabilityIndexFactor f * creditWeights.profitabilityIndex +
    liquidityIndexFactor f * creditWeights.liquidityIndex))
  have hsum : 1000 * (revenueGrowthFactor f * creditWeights.revenueGrowth +
      burnStabilityFactor f * creditWeights.burnStability +
      cashRunwayFactor f * creditWeights.cashRunway +
      debtRatioFactor * creditWeights.debtRatio +
      paymentReliabilityFactor * creditWeights.paymentReliability +
      profitabilityIndexFactor f * creditWeights.profitabilityIndex +
      liquidityIndexFactor f * creditWeights.liquidityIndex) =
    revenueGrowthFactor f * 1000 * creditWeights.revenueGrowth +
      burnStabilityFactor f * 1000 * creditWeights.burnStability +
      cashRunwayFactor f * 1000 * creditWeights.cashRunway +
      debtRatioFactor * 1000 * creditWeights.debtRatio +
      paymentReliabilityFactor * 1000 * creditWeights.paymentReliability +
      profitabilityIndexFactor f * 1000 * creditWeights.profitabilityIndex +
      liquidityIndexFactor f * 1000 * creditWeights.liquidityIndex := by ring
  rw [abs_le]
  constructor
  · have hq : (-7 : ℚ) ≤
        ((jsRound (revenueGrowthFactor f * 1000 * creditWeights.revenueGrowth) : ℚ) +
          jsRound (burnStabilityFactor f * 1000 * creditWeights.burnStability) +
          jsRound (cashRunwayFactor f * 1000 * creditWeights.cashRunway) +
          jsRound (debtRatioFactor * 1000 * creditWeights.debtRatio) +
          jsRound (paymentReliabilityFactor * 1000 * creditWeights.paymentReliability) +
          jsRound (profitabilityIndexFactor f * 1000 * creditWeights.profitabilityIndex) +
          jsRound (liquidityIndexFactor f * 1000 * creditWeights.liquidityIndex)) -
          jsRound (1000 * (revenueGrowthFactor f * creditWeights.revenueGrowth +
            burnStabilityFactor f * creditWeights.burnStability +
            cashRunwayFactor f * creditWeights.cashRunway +
            debtRatioFactor * creditWeights.debtRatio +
            paymentReliabilityFactor * creditWeights.paymentReliability +
            profitabilityIndexFactor f * creditWeights.profitabilityIndex +
            liquidityIndexFactor f * creditWeights.liquidityIndex)) := by
      linarith
    exact_mod_cast hq
  · have hq : ((jsRound (revenueGrowthFactor f * 1000 * creditWeights.revenueGrowth) : ℚ) +
          jsRound (burnStabilityFactor f * 1000 * creditWeights.burnStability) +
          jsRound (cashRunwayFactor f * 1000 * creditWeights.cashRunway) +
          jsRound (debtRatioFactor * 1000 * creditWeights.debtRatio) +
          jsRound (paymentReliabilityFactor * 1000 * creditWeights.paymentReliability) +
          jsRound (profitabilityIndexFactor f * 1000 * creditWeights.profitabilityIndex) +
          jsRound (liquidityIndexFactor f * 1000 * creditWeights.liquidityIndex)) -
          jsRound (1000 * (revenueGrowthFactor f * creditWeights.revenueGrowth +
            burnStabilityFactor f * creditWeights.burnStability +
            cashRunwayFactor f * creditWeights.cashRunway +
            debtRatioFactor * creditWeights.debtRatio +
            paymentReliabilityFactor * creditWeights.paymentReliability +
            profitabilityIndexFactor f * creditWeights.profitabilityIndex +
            liquidityIndexFactor f * creditWeights.liquidityIndex)) ≤ 7 := by
      linarith
    exact_mod_cast hq

/-- C10: `getCurrentFinancials` never changes the engine's state - the state
after a call equals the state before - and a second consecutive call on any
engine state returns the same snapshot as the first. -/
theorem getCurrentFinancials_pure (engine : MockDataEngine) :
    (engine.getCurrentFinancials).1 = engine ∧
    ((engine.getCurrentFinancials).1.getCurrentFinancials).2 =
      (engine.getCurrentFinancials).2 := by
  obtain ⟨b, p⟩ := engine
  have h1 : (MockDataEngine.getCurrentFinancials ⟨b, p⟩).1 = ⟨b, p⟩ := by
    rw [MockDataEngine.getCurrentFinancials]
    split
    · rfl
    · rfl
  exact ⟨h1, by rw [h1]⟩
